import Mathlib

/-!
Shallow embedding of the botv1 backend position-monitoring engine.

Sources embedded here:
 - src/src/worker.ts        (runTrailingEngine, executePaperSell, price resolution)
 - src/src/routes/watches.ts (POST /watches, /watches/:id/sell, /watches/:id/pause,
                              checkIdempotency, storeIdempotencyKey, formatWatch)
 - src/src/adapters/execution.ts (PaperAdapter)
 - src/src/db/schema.sql    (watches, trades, idempotency_keys tables)

Monetary quantities and prices are modelled as rationals; JavaScript
falsiness of 0 and null on numeric fields is modelled explicitly by jsOr.
Database rows are records; each route handler is a function from the
relevant store fragment to the updated fragment plus a typed response.
-/

namespace Botv1

inductive Mode
  | PAPER
  | LIVE
deriving DecidableEq

inductive TpMode
  | FIXED
  | TRAIL
deriving DecidableEq

inductive WStatus
  | ACTIVE
  | PAUSED
  | SOLD
  | STOPPED
deriving DecidableEq

inductive Side
  | BUY
  | SELL
deriving DecidableEq

/-- JavaScript `x || d` on a nullable number: null and 0 both fall through. -/
def jsOr (x : Option ℚ) (d : ℚ) : ℚ :=
  match x with
  | none => d
  | some v => if v = 0 then d else v

/-- JavaScript `x || null` on a nullable number (watches.ts line 272). -/
def jsOrNull (x : Option ℚ) : Option ℚ :=
  match x with
  | none => none
  | some v => if v = 0 then none else some v

/-- JavaScript `Math.round(x * 100) / 100` (half rounds toward plus infinity). -/
def jsRound2 (q : ℚ) : ℚ :=
  (⌊q * 100 + 1 / 2⌋ : ℚ) / 100

/-- A row of the watches table (schema.sql lines 22-41 plus user_id from the
migration); timestamp columns are omitted as no claim concerns them. -/
structure WatchRow where
  id : Nat
  userId : Option String
  symbol : String
  mode : Mode
  entryPrice : ℚ
  currentPrice : ℚ
  amountUsdt : ℚ
  quantity : ℚ
  tpMode : TpMode
  tpPercent : ℚ
  trailingStepPercent : Option ℚ
  trailingHigh : Option ℚ
  status : WStatus
  unrealizedPnl : ℚ
  sellPrice : Option ℚ
  realizedPnl : Option ℚ
deriving DecidableEq

/-- A row of the trades table (schema.sql lines 44-56; fee added by migration,
null when an INSERT omits the column). -/
structure Trade where
  watchId : Nat
  userId : Option String
  symbol : String
  side : Side
  price : ℚ
  quantity : ℚ
  amountUsdt : ℚ
  fee : Option ℚ
  pnl : Option ℚ
  mode : Mode
deriving DecidableEq

/-- Result shape of ExecutionAdapter.placeMarketBuy / placeMarketSell
(execution.ts lines 3-8); order_id is omitted as no claim concerns it. -/
structure OrderResult where
  filledQty : ℚ
  avgPrice : ℚ
  feeUsdt : ℚ
deriving DecidableEq

/-- The store fragment the claims touch: watches, trades and the idempotency
keys (client_order_id, watch_id). nextId models the AUTOINCREMENT counter. -/
structure Store where
  watches : List WatchRow
  trades : List Trade
  idemKeys : List (String × Nat)
  nextId : Nat
deriving DecidableEq

/-! ### Trailing engine (worker.ts) -/

/-- Price resolution for one watch (worker.ts line 402):
devPrice if an override exists, else the cached feed price or 0. -/
def resolvedPrice (dev feed : Option ℚ) : ℚ :=
  dev.getD (feed.getD 0)

/-- worker.ts line 405: peakPrice = watch.trailing_high or watch.entry_price. -/
def peakBase (w : WatchRow) : ℚ :=
  jsOr w.trailingHigh w.entryPrice

/-- worker.ts line 406: currentTpPrice = peakPrice * (1 - tp_percent). -/
def tpBase (w : WatchRow) : ℚ :=
  peakBase w * (1 - w.tpPercent)

/-- worker.ts line 408: if price is above the peak, the peak becomes price. -/
def newPeak (w : WatchRow) (price : ℚ) : ℚ :=
  if peakBase w < price then price else peakBase w

/-- worker.ts line 410: candidateTp = (updated peak) * (1 - tp_percent). -/
def candidateTp (w : WatchRow) (price : ℚ) : ℚ :=
  newPeak w price * (1 - w.tpPercent)

/-- worker.ts line 411: stepPercent = trailing_step_percent or 0.005. -/
def stepPct (w : WatchRow) : ℚ :=
  jsOr w.trailingStepPercent (5 / 1000)

/-- worker.ts lines 412-420: the tp is upgraded within the tick only when
candidateTp reaches stepThreshold = currentTpPrice * (1 + stepPercent). -/
def tpMovedCalc (w : WatchRow) (price : ℚ) : Bool :=
  decide (tpBase w * (1 + stepPct w) ≤ candidateTp w price)

/-- The take-profit value the trigger comparison of this tick uses
(worker.ts lines 414-420 and 455). -/
def tpUsedCalc (w : WatchRow) (price : ℚ) : ℚ :=
  if tpMovedCalc w price then candidateTp w price else tpBase w

/-- worker.ts lines 422-429: the unconditional row update of the tick
(current_price, trailing_high, unrealized_pnl). -/
def engineUpdateRow (w : WatchRow) (price : ℚ) : WatchRow :=
  { w with
    currentPrice := price
    trailingHigh := some (newPeak w price)
    unrealizedPnl := (price - w.entryPrice) / w.entryPrice * w.amountUsdt }

/-- worker.ts lines 478-511, executePaperSell: marks the row SOLD with
sell price, realized pnl and zeroed unrealized pnl, and appends a SELL
trade whose INSERT carries no fee column. -/
def executePaperSell (w : WatchRow) (sellPrice : ℚ) : WatchRow × Trade :=
  let pnl := (sellPrice - w.entryPrice) / w.entryPrice * w.amountUsdt
  let sellAmount := w.amountUsdt + pnl
  ({ w with
      status := WStatus.SOLD
      sellPrice := some sellPrice
      realizedPnl := some pnl
      unrealizedPnl := 0 },
   { watchId := w.id
     userId := w.userId
     symbol := w.symbol
     side := Side.SELL
     price := sellPrice
     quantity := w.quantity
     amountUsdt := sellAmount
     fee := none
     pnl := some pnl
     mode := w.mode })

/-- Everything one evaluation of a single watch produces inside
runTrailingEngine (worker.ts lines 391-458). -/
structure TickOutcome where
  updated : WatchRow
  tpUsed : ℚ
  tpMoved : Bool
  closed : Bool
  trade : Option Trade
deriving DecidableEq

/-- One ACTIVE watch of one credentialed user inside runTrailingEngine
(worker.ts lines 391-458). Returns none when the resolved price is 0
(skip, no mutation). The close branch fires only when
price is at most the tick tp AND the watch mode is PAPER (line 455). -/
def engineStep (w : WatchRow) (dev feed : Option ℚ) : Option TickOutcome :=
  let price := resolvedPrice dev feed
  if price = 0 then none
  else if price ≤ tpUsedCalc w price ∧ w.mode = Mode.PAPER then
    some { updated := (executePaperSell (engineUpdateRow w price) price).1
           tpUsed := tpUsedCalc w price
           tpMoved := tpMovedCalc w price
           closed := true
           trade := some (executePaperSell (engineUpdateRow w price) price).2 }
  else
    some { updated := engineUpdateRow w price
           tpUsed := tpUsedCalc w price
           tpMoved := tpMovedCalc w price
           closed := false
           trade := none }

/-- worker.ts lines 384-389: the engine loop iterates only users returned by
getUsersWithSecrets (those with an encrypted Binance key) and selects the
ACTIVE watches of each. -/
def ownerCovered (users : List String) (w : WatchRow) : Bool :=
  match w.userId with
  | some u => users.contains u
  | none => false

/-- What one pass of runTrailingEngine does to one watch row: it is
evaluated only when ACTIVE and owned by a credentialed user; otherwise the
row is untouched and no trade is appended. -/
def evalInTick (users : List String) (w : WatchRow) (dev feed : Option ℚ) :
    WatchRow × Option Trade :=
  if w.status = WStatus.ACTIVE ∧ ownerCovered users w = true then
    match engineStep w dev feed with
    | none => (w, none)
    | some o => (o.updated, o.trade)
  else (w, none)

/-! ### Paper execution adapter (execution.ts) -/

/-- execution.ts lines 33-40: the cached worker price (0 when absent) and
the paper fee in basis points (meta key, default 10). -/
def paperFeeBps (metaFeeBps : Option ℕ) : ℕ :=
  metaFeeBps.getD 10

/-- PaperAdapter.placeMarketBuy (execution.ts lines 45-62). The cached price
argument models the worker_prices row for the symbol (none when absent);
none output models the thrown error when that price is 0 or absent. -/
def placeMarketBuy (cached : Option ℚ) (metaFeeBps : Option ℕ) (amountUsdt : ℚ) :
    Option OrderResult :=
  let price := jsOr cached 0
  if price = 0 then none
  else
    some { filledQty := amountUsdt / price
           avgPrice := price
           feeUsdt := amountUsdt * (paperFeeBps metaFeeBps : ℚ) / 10000 }

/-- PaperAdapter.placeMarketSell (execution.ts lines 64-81). -/
def placeMarketSell (cached : Option ℚ) (metaFeeBps : Option ℕ) (qty : ℚ) :
    Option OrderResult :=
  let price := jsOr cached 0
  if price = 0 then none
  else
    some { filledQty := qty
           avgPrice := price
           feeUsdt := qty * price * (paperFeeBps metaFeeBps : ℚ) / 10000 }

/-! ### Routes (watches.ts) -/

/-- watches.ts lines 65-71, checkIdempotency: SELECT watch_id FROM
idempotency_keys WHERE client_order_id = token, then watch_id or null
(so a stored 0 would read back as null). No owner in the key. -/
def checkIdempotency : List (String × Nat) → String → Option Nat
  | [], _ => none
  | kv :: rest, tok =>
    if kv.1 = tok then (if kv.2 = 0 then none else some kv.2)
    else checkIdempotency rest tok

/-- Open request body (watches.ts lines 10-19) together with the session
owner making the request; the handler never reads the owner. -/
structure OpenReq where
  owner : String
  symbol : String
  mode : Mode
  entryPrice : Option ℚ
  amountUsdt : ℚ
  tpMode : TpMode
  tpPercent : ℚ
  trailingStepPercent : Option ℚ
  clientOrderId : Option String
deriving DecidableEq

inductive OpenResp
  | idempotent (watchId : Nat)
  | created (watchId : Nat)
  | guardRejected
  | orderFailed
deriving DecidableEq

/-- POST /watches (watches.ts lines 91-317). The third component records
whether the execution adapter was invoked. liveGuardOk models the outcome
of checkLiveGuards; liveOrder the LIVE adapter result (none = throw). -/
def postWatch (st : Store) (req : OpenReq) (cached : Option ℚ)
    (metaFeeBps : Option ℕ) (liveGuardOk : Bool) (liveOrder : Option OrderResult) :
    Store × OpenResp × Bool :=
  match req.clientOrderId.bind (fun tok => checkIdempotency st.idemKeys tok) with
  | some existingId => (st, OpenResp.idempotent existingId, false)
  | none =>
    match req.mode with
    | Mode.LIVE =>
      if liveGuardOk = false then (st, OpenResp.guardRejected, false)
      else
        match liveOrder with
        | none => (st, OpenResp.orderFailed, true)
        | some r =>
          let entry := r.avgPrice
          let qty := r.filledQty
          let amount := qty * entry
          let wid := st.nextId
          let w : WatchRow :=
            { id := wid, userId := none, symbol := req.symbol, mode := Mode.LIVE
              entryPrice := entry, currentPrice := entry
              amountUsdt := amount, quantity := qty
              tpMode := req.tpMode, tpPercent := req.tpPercent
              trailingStepPercent := jsOrNull req.trailingStepPercent
              trailingHigh := if req.tpMode = TpMode.TRAIL then some entry else none
              status := WStatus.ACTIVE, unrealizedPnl := 0
              sellPrice := none, realizedPnl := none }
          let t : Trade :=
            { watchId := wid, userId := none, symbol := req.symbol, side := Side.BUY
              price := entry, quantity := qty, amountUsdt := amount
              fee := none, pnl := some 0, mode := Mode.LIVE }
          ({ watches := st.watches ++ [w]
             trades := st.trades ++ [t]
             idemKeys := st.idemKeys ++
               (match req.clientOrderId with
                | some tok => [(tok, wid)]
                | none => [])
             nextId := st.nextId + 1 },
           OpenResp.created wid, true)
    | Mode.PAPER =>
      let entry := jsOr req.entryPrice (jsOr cached 100000)
      let qty := req.amountUsdt / entry
      match placeMarketBuy cached metaFeeBps req.amountUsdt with
      | none => (st, OpenResp.orderFailed, true)
      | some r =>
        let wid := st.nextId
        let w : WatchRow :=
          { id := wid, userId := none, symbol := req.symbol, mode := Mode.PAPER
            entryPrice := entry, currentPrice := entry
            amountUsdt := req.amountUsdt, quantity := qty
            tpMode := req.tpMode, tpPercent := req.tpPercent
            trailingStepPercent := jsOrNull req.trailingStepPercent
            trailingHigh := if req.tpMode = TpMode.TRAIL then some entry else none
            status := WStatus.ACTIVE, unrealizedPnl := 0
            sellPrice := none, realizedPnl := none }
        let t : Trade :=
          { watchId := wid, userId := none, symbol := req.symbol, side := Side.BUY
            price := entry, quantity := qty, amountUsdt := req.amountUsdt
            fee := some r.feeUsdt, pnl := some 0, mode := Mode.PAPER }
        ({ watches := st.watches ++ [w]
           trades := st.trades ++ [t]
           idemKeys := st.idemKeys ++
             (match req.clientOrderId with
              | some tok => [(tok, wid)]
              | none => [])
           nextId := st.nextId + 1 },
         OpenResp.created wid, true)

/-- SELECT * FROM watches WHERE id = ?. -/
def findWatch (ws : List WatchRow) (id : Nat) : Option WatchRow :=
  ws.find? (fun w => w.id = id)

/-- UPDATE of the single row with the id of the given row. -/
def replaceWatch (ws : List WatchRow) (w1 : WatchRow) : List WatchRow :=
  ws.map (fun w => if w.id = w1.id then w1 else w)

inductive SellResult
  | notFound
  | alreadySold
  | noMarketData
  | orderFailed
  | sold
deriving DecidableEq

/-- POST /watches/:id/sell (watches.ts lines 374-497). The only status
guard is status = SOLD, answered with a 400 ALREADY_SOLD error. conn is
the worker price connectivity flag checked for LIVE mode; adapter is the
placeMarketSell outcome (none = throw, answered 500 with no writes). -/
def postSell (st : Store) (id : Nat) (conn : Bool) (adapter : Option OrderResult) :
    Store × SellResult :=
  match findWatch st.watches id with
  | none => (st, SellResult.notFound)
  | some w =>
    if w.status = WStatus.SOLD then (st, SellResult.alreadySold)
    else if w.mode = Mode.LIVE ∧ conn = false then (st, SellResult.noMarketData)
    else
      match adapter with
      | none => (st, SellResult.orderFailed)
      | some r =>
        let pnl := (r.avgPrice - w.entryPrice) / w.entryPrice * w.amountUsdt
        let sellAmount := w.amountUsdt + pnl - r.feeUsdt
        let w1 : WatchRow :=
          { w with
            status := WStatus.SOLD
            sellPrice := some r.avgPrice
            realizedPnl := some pnl
            unrealizedPnl := 0 }
        let t : Trade :=
          { watchId := w.id, userId := none, symbol := w.symbol, side := Side.SELL
            price := r.avgPrice, quantity := w.quantity, amountUsdt := sellAmount
            fee := some r.feeUsdt, pnl := some pnl, mode := w.mode }
        ({ st with watches := replaceWatch st.watches w1, trades := st.trades ++ [t] },
         SellResult.sold)

inductive PauseResult
  | notFound
  | invalidStatus
  | paused
deriving DecidableEq

/-- POST /watches/:id/pause (watches.ts lines 320-344): only status and
updated_at are written; every other column keeps its value. -/
def postPause (st : Store) (id : Nat) : Store × PauseResult :=
  match findWatch st.watches id with
  | none => (st, PauseResult.notFound)
  | some w =>
    if w.status ≠ WStatus.ACTIVE then (st, PauseResult.invalidStatus)
    else
      ({ st with watches := replaceWatch st.watches { w with status := WStatus.PAUSED } },
       PauseResult.paused)

/-- formatWatch current_tp_price (watches.ts lines 509-514 and 530). -/
def formatTpPrice (w : WatchRow) : Option ℚ :=
  match w.tpMode, w.trailingHigh with
  | TpMode.TRAIL, some th => some (jsRound2 (th * (1 - w.tpPercent)))
  | TpMode.TRAIL, none => none
  | TpMode.FIXED, _ => some (jsRound2 (w.entryPrice * (1 + w.tpPercent)))

/-- formatWatch unrealized pnl (watches.ts lines 516 and 532): the response
masks the persisted value to 0 for non-ACTIVE rows. -/
def formatUnrealizedPnl (w : WatchRow) : ℚ :=
  jsRound2 (if w.status = WStatus.ACTIVE then w.unrealizedPnl else 0)

/-! ### Concrete rows and stores used by counterexamples and witnesses -/

/-- A LIVE trailing watch at entry 100 with a committed peak of 100. -/
def wLive : WatchRow :=
  { id := 1, userId := some "u1", symbol := "BTCUSDT", mode := Mode.LIVE
    entryPrice := 100, currentPrice := 100, amountUsdt := 1000, quantity := 10
    tpMode := TpMode.TRAIL, tpPercent := 1 / 20, trailingStepPercent := none
    trailingHigh := some 100, status := WStatus.ACTIVE, unrealizedPnl := 0
    sellPrice := none, realizedPnl := none }

/-- The same position in PAPER mode but owned by a user without stored
exchange credentials. -/
def wPaperUncovered : WatchRow :=
  { wLive with id := 2, userId := some "u2", mode := Mode.PAPER }

/-- A PAPER trailing watch with an explicit 1 percent hysteresis step. -/
def wTrail : WatchRow :=
  { wLive with mode := Mode.PAPER, trailingStepPercent := some (1 / 100) }

/-- A PAPER FIXED-mode watch as POST /watches creates it
(trailing_high null). -/
def wFixed : WatchRow :=
  { wLive with
      id := 3
      mode := Mode.PAPER
      tpMode := TpMode.FIXED
      trailingHigh := none }

/-- The outcome of one engine tick on wTrail at resolved price 101,
used to instantiate hypothesised theorems. -/
def tickTrail101 : TickOutcome :=
  { updated := { wTrail with currentPrice := 101, trailingHigh := some 101, unrealizedPnl := 10 }
    tpUsed := 1919 / 20
    tpMoved := true
    closed := false
    trade := none }

/-- The SELL trade the engine records when closing wTrail at price 94. -/
def tradeTrail94 : Trade :=
  { watchId := 1, userId := some "u1", symbol := "BTCUSDT", side := Side.SELL
    price := 94, quantity := 10, amountUsdt := 940, fee := none
    pnl := some (-60), mode := Mode.PAPER }

/-- The outcome of one engine tick on wTrail at resolved price 94
(trigger fires: 94 is at most the tick take-profit 95). -/
def tickTrail94 : TickOutcome :=
  { updated := { wTrail with currentPrice := 94, status := WStatus.SOLD, unrealizedPnl := 0, sellPrice := some 94, realizedPnl := some (-60) }
    tpUsed := 95
    tpMoved := false
    closed := true
    trade := some tradeTrail94 }

/-- First tick of wTrail at resolved price 100.5: a new high below the
hysteresis step threshold. -/
def tickHalf1 : TickOutcome :=
  { updated := { wTrail with currentPrice := 201 / 2, trailingHigh := some (201 / 2), unrealizedPnl := 5 }
    tpUsed := 95
    tpMoved := false
    closed := false
    trade := none }

/-- Second tick at resolved price 100.5 on the row committed by the
first: the baseline take-profit is rederived from the new peak. -/
def tickHalf2 : TickOutcome :=
  { updated := { wTrail with currentPrice := 201 / 2, trailingHigh := some (201 / 2), unrealizedPnl := 5 }
    tpUsed := 3819 / 40
    tpMoved := false
    closed := false
    trade := none }

/-- The trailing watch in PAUSED state. -/
def wPausedRow : WatchRow := { wTrail with status := WStatus.PAUSED }

/-- The trailing watch in SOLD state. -/
def wSoldRow : WatchRow := { wTrail with status := WStatus.SOLD }

/-- A store holding only the ACTIVE trailing watch. -/
def stSell : Store := { watches := [wTrail], trades := [], idemKeys := [], nextId := 2 }

/-- A store holding only the PAUSED trailing watch. -/
def stPaused : Store := { watches := [wPausedRow], trades := [], idemKeys := [], nextId := 2 }

/-- A store holding only the SOLD trailing watch. -/
def stSold : Store := { watches := [wSoldRow], trades := [], idemKeys := [], nextId := 2 }

/-- The paper adapter fill for selling quantity 10 at cached price 94
with the default 10 bps fee. -/
def fill94 : OrderResult := { filledQty := 10, avgPrice := 94, feeUsdt := 47 / 50 }

/-- The SELL trade the manual close records for the trailing watch at
fill price 94 (fee deducted from the notional, fee column set). -/
def tradeManual94 : Trade :=
  { watchId := 1, userId := none, symbol := "BTCUSDT", side := Side.SELL
    price := 94, quantity := 10, amountUsdt := 46953 / 50
    fee := some (47 / 50), pnl := some (-60), mode := Mode.PAPER }

/-- A PAPER open request carrying idempotency token tok1. -/
def reqO : OpenReq :=
  { owner := "alice", symbol := "BTCUSDT", mode := Mode.PAPER
    entryPrice := some 100, amountUsdt := 1000, tpMode := TpMode.TRAIL
    tpPercent := 1 / 20, trailingStepPercent := some (1 / 100)
    clientOrderId := some "tok1" }

/-- The empty store with AUTOINCREMENT counter 1. -/
def st0 : Store := { watches := [], trades := [], idemKeys := [], nextId := 1 }

/-- The watch row created by posting reqO to the empty store at cached
price 100. -/
def watchOpen1 : WatchRow :=
  { id := 1, userId := none, symbol := "BTCUSDT", mode := Mode.PAPER
    entryPrice := 100, currentPrice := 100, amountUsdt := 1000, quantity := 10
    tpMode := TpMode.TRAIL, tpPercent := 1 / 20
    trailingStepPercent := some (1 / 100), trailingHigh := some 100
    status := WStatus.ACTIVE, unrealizedPnl := 0
    sellPrice := none, realizedPnl := none }

/-- The BUY trade created by posting reqO to the empty store at cached
price 100 with the default 10 bps fee. -/
def tradeOpen1 : Trade :=
  { watchId := 1, userId := none, symbol := "BTCUSDT", side := Side.BUY
    price := 100, quantity := 10, amountUsdt := 1000
    fee := some 1, pnl := some 0, mode := Mode.PAPER }

/-- The store after the first successful open of reqO. -/
def st0After : Store :=
  { watches := [watchOpen1], trades := [tradeOpen1]
    idemKeys := [("tok1", 1)], nextId := 2 }

/-- A store whose idempotency table already maps tok1 to watch 7. -/
def stIdem : Store := { watches := [], trades := [], idemKeys := [("tok1", 7)], nextId := 8 }

/-! ### Helper lemmas -/

/-- Inversion on one engine evaluation: what every successful tick
guarantees about the produced outcome, in both the closing and the
non-closing branch. -/
theorem engineStep_spec (w : WatchRow) (dev feed : Option ℚ) (o : TickOutcome)
    (h : engineStep w dev feed = some o) :
    resolvedPrice dev feed ≠ 0
    ∧ o.tpUsed = tpUsedCalc w (resolvedPrice dev feed)
    ∧ o.tpMoved = tpMovedCalc w (resolvedPrice dev feed)
    ∧ o.closed = decide (resolvedPrice dev feed ≤ tpUsedCalc w (resolvedPrice dev feed)
                          ∧ w.mode = Mode.PAPER)
    ∧ o.updated.trailingHigh = some (newPeak w (resolvedPrice dev feed))
    ∧ o.updated.entryPrice = w.entryPrice
    ∧ o.updated.tpPercent = w.tpPercent
    ∧ o.updated.trailingStepPercent = w.trailingStepPercent
    ∧ o.updated.amountUsdt = w.amountUsdt
    ∧ o.updated.quantity = w.quantity
    ∧ o.updated.mode = w.mode
    ∧ o.updated.userId = w.userId
    ∧ o.updated.currentPrice = resolvedPrice dev feed
    ∧ (o.closed = true →
        o.updated.status = WStatus.SOLD
        ∧ o.updated.unrealizedPnl = 0
        ∧ o.updated.sellPrice = some (resolvedPrice dev feed)
        ∧ o.updated.realizedPnl =
            some ((resolvedPrice dev feed - w.entryPrice) / w.entryPrice * w.amountUsdt)
        ∧ o.trade =
            some (executePaperSell (engineUpdateRow w (resolvedPrice dev feed))
                    (resolvedPrice dev feed)).2)
    ∧ (o.closed = false →
        o.updated = engineUpdateRow w (resolvedPrice dev feed)
        ∧ o.updated.status = w.status
        ∧ o.trade = none) := by
  have h0 : resolvedPrice dev feed ≠ 0 := by
    intro hz
    simp [engineStep, hz] at h
  refine ⟨h0, ?_⟩
  simp only [engineStep] at h
  rw [if_neg h0] at h
  by_cases hcl : resolvedPrice dev feed ≤ tpUsedCalc w (resolvedPrice dev feed)
      ∧ w.mode = Mode.PAPER
  · rw [if_pos hcl] at h
    injection h with h
    subst h
    simp [executePaperSell, engineUpdateRow, hcl]
  · rw [if_neg hcl] at h
    injection h with h
    subst h
    simp [engineUpdateRow, hcl]

/-- The committed peak of a tick is the maximum of the previous base peak
and the resolved price (worker.ts line 408). -/
theorem newPeak_eq_max (w : WatchRow) (p : ℚ) :
    newPeak w p = max (peakBase w) p := by
  rw [newPeak]
  by_cases hlt : peakBase w < p
  · rw [if_pos hlt, max_eq_right hlt.le]
  · rw [if_neg hlt, max_eq_left (le_of_not_lt hlt)]

/-- The base peak is at least the entry price when the stored peak is
absent or at least the entry. -/
theorem entry_le_peakBase (w : WatchRow)
    (hinv : ∀ th : ℚ, w.trailingHigh = some th → w.entryPrice ≤ th) :
    w.entryPrice ≤ peakBase w := by
  rcases hth : w.trailingHigh with _ | th
  · simp [peakBase, jsOr, hth]
  · by_cases hz : th = 0
    · simp [peakBase, jsOr, hth, hz]
    · simpa [peakBase, jsOr, hth, hz] using hinv th hth

/-- The take-profit mode field plays no role in the tick take-profit. -/
theorem tpUsedCalc_tpMode (w : WatchRow) (m : TpMode) (p : ℚ) :
    tpUsedCalc { w with tpMode := m } p = tpUsedCalc w p := rfl

/-- The take-profit mode field plays no role in the hysteresis test. -/
theorem tpMovedCalc_tpMode (w : WatchRow) (m : TpMode) (p : ℚ) :
    tpMovedCalc { w with tpMode := m } p = tpMovedCalc w p := rfl

/-- The mode column is untouched by a take-profit mode override. -/
theorem mode_tpMode (w : WatchRow) (m : TpMode) :
    ({ w with tpMode := m } : WatchRow).mode = w.mode := rfl

/-- The unconditional tick row update commutes with a take-profit mode
override. -/
theorem engineUpdateRow_tpMode (w : WatchRow) (m : TpMode) (p : ℚ) :
    engineUpdateRow { w with tpMode := m } p
      = { engineUpdateRow w p with tpMode := m } := rfl

/-- The paper close commutes with a take-profit mode override. -/
theorem executePaperSell_tpMode (w : WatchRow) (m : TpMode) (p : ℚ) :
    executePaperSell { w with tpMode := m } p
      = ({ (executePaperSell w p).1 with tpMode := m },
         (executePaperSell w p).2) := rfl

/-- The idempotency lookup misses when no stored key carries the token. -/
theorem checkIdempotency_eq_none (l : List (String × Nat)) (tok : String)
    (hfresh : ∀ kv ∈ l, kv.1 ≠ tok) :
    checkIdempotency l tok = none := by
  induction l with
  | nil => rfl
  | cons kv rest ih =>
    rw [checkIdempotency, if_neg (hfresh kv (List.mem_cons_self kv rest))]
    exact ih (fun kv1 h1 => hfresh kv1 (List.mem_cons_of_mem kv h1))

/-- After appending a fresh token binding, the idempotency lookup finds
it (its watch id being nonzero). -/
theorem checkIdempotency_append (l : List (String × Nat)) (tok : String) (k : Nat)
    (hfresh : ∀ kv ∈ l, kv.1 ≠ tok) (hk : k ≠ 0) :
    checkIdempotency (l ++ [(tok, k)]) tok = some k := by
  induction l with
  | nil =>
    rw [List.nil_append, checkIdempotency, if_pos rfl, if_neg hk]
  | cons kv rest ih =>
    rw [List.cons_append, checkIdempotency,
      if_neg (hfresh kv (List.mem_cons_self kv rest))]
    exact ih (fun kv1 h1 => hfresh kv1 (List.mem_cons_of_mem kv h1))

/-- Overriding the request owner leaves the idempotency token intact. -/
theorem clientOrderId_owner (req : OpenReq) (o : String) :
    ({ req with owner := o } : OpenReq).clientOrderId = req.clientOrderId := rfl

/-! ### Claims -/

/-- C1 counterexample. With price resolved to 90 and the committed
take-profit at 95, the trigger condition price at most tp holds, yet the
engine does not close the LIVE position (its status stays ACTIVE and no
close runs), and a PAPER position owned by a user without stored
credentials is not evaluated at all in the tick. This refutes the claim
that positions are not excluded by their mode or by whether their owner
has stored exchange credentials. -/
theorem C1_counterexample :
    ((engineStep wLive (some 90) none).map
        (fun o => (o.closed, o.updated.status,
                   decide (resolvedPrice (some 90) none ≤ o.tpUsed)))
      = some (false, WStatus.ACTIVE, true))
    ∧ evalInTick ["u1"] wPaperUncovered (some 90) none = (wPaperUncovered, none) := by
  constructor
  · norm_num [engineStep, resolvedPrice, tpUsedCalc, tpMovedCalc, tpBase, peakBase,
      candidateTp, newPeak, stepPct, jsOr, engineUpdateRow, executePaperSell, wLive,
      show (Mode.LIVE = Mode.PAPER) = False from by simp]
  · norm_num [evalInTick, ownerCovered, wPaperUncovered, wLive]
    intro h
    exact absurd h (by decide)

/-- C2 counterexample. Trailing watch, entry 100, tpPercent 0.05, step
0.01, committed peak 100. Two consecutive ticks at price 100.5: the
hysteresis condition fails on both ticks (tpMoved is false twice), yet
the take-profit the trigger comparison uses changes from 95 to 95.475,
because each tick derives it from the unconditionally committed peak.
This refutes the claim that the committed take-profit changes between
consecutive ticks only when the candidate clears the step threshold. -/
theorem C2_counterexample :
    ((engineStep wTrail (some (201 / 2)) none).bind (fun o1 =>
        (engineStep o1.updated (some (201 / 2)) none).map (fun o2 =>
          (o1.tpMoved, o2.tpMoved, decide (o1.tpUsed = o2.tpUsed)))))
      = some (false, false, false) := by
  norm_num [engineStep, resolvedPrice, tpUsedCalc, tpMovedCalc, tpBase, peakBase,
    candidateTp, newPeak, stepPct, jsOr, engineUpdateRow, executePaperSell,
    wTrail, wLive, Option.bind]

/-- C3 counterexample. FIXED watch, entry 100, tpPercent 0.05, evaluated
at price 104. The claim says the trigger comparison uses
entryPrice times (1 + tpPercent) = 105, so 104 would trigger a close;
the engine instead uses peak times (1 - tpPercent) = 98.8 and does not
close. Only the response formatter reports 105 for FIXED watches. -/
theorem C3_counterexample :
    ((engineStep wFixed (some 104) none).map
        (fun o => (o.closed, decide (o.tpUsed = 105))) = some (false, false))
    ∧ formatTpPrice wFixed = some 105
    ∧ ((104 : ℚ) ≤ 105) := by
  refine ⟨?_, ?_, by norm_num⟩
  · norm_num [engineStep, resolvedPrice, tpUsedCalc, tpMovedCalc, tpBase, peakBase,
      candidateTp, newPeak, stepPct, jsOr, engineUpdateRow, executePaperSell,
      wFixed, wLive]
  · norm_num [formatTpPrice, jsRound2, wFixed, wLive]

/-- C9 counterexample. Pausing an ACTIVE watch whose persisted unrealized
P&L is 50 moves it to PAUSED but leaves the persisted unrealized P&L
field at 50, refuting the claim that every operation moving a position
out of ACTIVE zeroes the persisted field. -/
theorem C9_counterexample :
    ((postPause { watches := [{ wTrail with unrealizedPnl := 50 }], trades := [],
                  idemKeys := [], nextId := 2 } 1).1.watches.map
        (fun w => (w.status, w.unrealizedPnl)) = [(WStatus.PAUSED, 50)])
    ∧ ((50 : ℚ) ≠ 0) := by
  refine ⟨?_, by norm_num⟩
  norm_num [postPause, findWatch, replaceWatch, List.find?, wTrail, wLive]

/-- C6: the simulated (PAPER) adapter fails exactly when the cached price
is absent or 0; otherwise the average price is the cached price, the fee
is notional times feeBps over 10000 with feeBps defaulting to 10, the
filled quantity is notional over price for opens and exactly the
requested quantity for closes; an open of notional 1000 at 10 bps yields
fee exactly 1. -/
theorem C6_theorem (cached : Option ℚ) (f : Option ℕ) (amount qty : ℚ) :
    (placeMarketBuy cached f amount = none ↔ (cached = none ∨ cached = some 0))
    ∧ (placeMarketSell cached f qty = none ↔ (cached = none ∨ cached = some 0))
    ∧ (∀ p : ℚ, cached = some p → p ≠ 0 →
        placeMarketBuy cached f amount =
          some { filledQty := amount / p, avgPrice := p,
                 feeUsdt := amount * (paperFeeBps f : ℚ) / 10000 }
        ∧ placeMarketSell cached f qty =
          some { filledQty := qty, avgPrice := p,
                 feeUsdt := qty * p * (paperFeeBps f : ℚ) / 10000 })
    ∧ paperFeeBps none = 10
    ∧ (placeMarketBuy (some 50000) (some 10) 1000).map OrderResult.feeUsdt = some 1 := by
  refine ⟨?_, ?_, ?_, rfl, by norm_num [placeMarketBuy, jsOr, paperFeeBps]⟩
  · rcases cached with _ | v
    · simp [placeMarketBuy, jsOr]
    · by_cases hv : v = 0 <;> simp [placeMarketBuy, jsOr, hv]
  · rcases cached with _ | v
    · simp [placeMarketSell, jsOr]
    · by_cases hv : v = 0 <;> simp [placeMarketSell, jsOr, hv]
  · rintro p rfl hp
    constructor <;> simp [placeMarketBuy, placeMarketSell, jsOr, hp]

/-- C6 witness: the adapter evaluated at cached price 50000, fee setting
10 bps, open notional 1000 and close quantity 2. -/
theorem C6_witness :
    placeMarketBuy (some 50000) (some 10) 1000 =
      some { filledQty := 1000 / 50000, avgPrice := 50000,
             feeUsdt := 1000 * (paperFeeBps (some 10) : ℚ) / 10000 }
    ∧ placeMarketSell (some 50000) (some 10) 2 =
      some { filledQty := 2, avgPrice := 50000,
             feeUsdt := 2 * 50000 * (paperFeeBps (some 10) : ℚ) / 10000 } :=
  (C6_theorem (some 50000) (some 10) 1000 2).2.2.1 50000 rfl (by norm_num)

/-- C10: for an evaluated position whose stored peak, when set, is at
least the entry price, the tick commits trailing_high =
max(previous peak or entry, resolved price); this committed peak is at
least the entry price, at least the previous base peak, and at least any
previously stored peak, and the entry price is unchanged, so the
precondition holds again on the next tick: the peak never decreases
across consecutive ticks and always dominates the entry price. -/
theorem C10_theorem (w : WatchRow) (dev feed : Option ℚ) (o : TickOutcome)
    (h : engineStep w dev feed = some o)
    (hinv : ∀ th : ℚ, w.trailingHigh = some th → w.entryPrice ≤ th)
    (hpos : 0 < w.entryPrice) :
    o.updated.trailingHigh = some (max (peakBase w) (resolvedPrice dev feed))
    ∧ w.entryPrice ≤ max (peakBase w) (resolvedPrice dev feed)
    ∧ peakBase w ≤ max (peakBase w) (resolvedPrice dev feed)
    ∧ (∀ th : ℚ, w.trailingHigh = some th → th ≤ max (peakBase w) (resolvedPrice dev feed))
    ∧ o.updated.entryPrice = w.entryPrice
    ∧ (∀ th : ℚ, o.updated.trailingHigh = some th → o.updated.entryPrice ≤ th) := by
  obtain ⟨-, -, -, -, hth, hentry, -⟩ := engineStep_spec w dev feed o h
  rw [newPeak_eq_max] at hth
  have hle : w.entryPrice ≤ peakBase w := entry_le_peakBase w hinv
  have hmax : w.entryPrice ≤ max (peakBase w) (resolvedPrice dev feed) :=
    le_trans hle (le_max_left _ _)
  refine ⟨hth, hmax, le_max_left _ _, ?_, hentry, ?_⟩
  · intro th hsome
    by_cases hz : th = 0
    · subst hz
      exact le_trans hpos.le hmax
    · have : peakBase w = th := by simp [peakBase, jsOr, hsome, hz]
      rw [← this]
      exact le_max_left _ _
  · intro th hsome
    rw [hth] at hsome
    injection hsome with hsome
    rw [hentry, ← hsome]
    exact hmax

/-- C10 witness: the trailing watch at entry 100 with stored peak 100
evaluated at resolved price 101. -/
theorem C10_witness :
    tickTrail101.updated.trailingHigh =
      some (max (peakBase wTrail) (resolvedPrice (some 101) none))
    ∧ wTrail.entryPrice ≤ max (peakBase wTrail) (resolvedPrice (some 101) none)
    ∧ peakBase wTrail ≤ max (peakBase wTrail) (resolvedPrice (some 101) none)
    ∧ (∀ th : ℚ, wTrail.trailingHigh = some th →
        th ≤ max (peakBase wTrail) (resolvedPrice (some 101) none))
    ∧ tickTrail101.updated.entryPrice = wTrail.entryPrice
    ∧ (∀ th : ℚ, tickTrail101.updated.trailingHigh = some th →
        tickTrail101.updated.entryPrice ≤ th) :=
  C10_theorem wTrail (some 101) none tickTrail101
    (by norm_num [engineStep, resolvedPrice, tpUsedCalc, tpMovedCalc, tpBase, peakBase,
          candidateTp, newPeak, stepPct, jsOr, engineUpdateRow, executePaperSell,
          tickTrail101, wTrail, wLive])
    (by intro th hsome
        have : th = 100 := by
          have h100 : wTrail.trailingHigh = some 100 := rfl
          rw [h100] at hsome
          injection hsome with hsome
          exact hsome.symm
        subst this
        norm_num [wTrail, wLive])
    (by norm_num [wTrail, wLive])

/-- C1 amended: per tick an ACTIVE position is evaluated only when its
owner is among the users with stored exchange credentials; when
additionally its mode is PAPER and the nonzero resolved price is at most
the tick take-profit, the engine closes it (status SOLD and a SELL trade
at the resolved price). A LIVE-mode position is never closed by the
engine even when the trigger condition holds, and a position whose owner
is not covered is not evaluated at all. -/
theorem C1_theorem (users : List String) (w : WatchRow) (dev feed : Option ℚ)
    (o : TickOutcome) (u : String)
    (hA : w.status = WStatus.ACTIVE) (hu : w.userId = some u) (hmem : u ∈ users)
    (hstep : engineStep w dev feed = some o)
    (htrig : resolvedPrice dev feed ≤ o.tpUsed)
    (hmode : w.mode = Mode.PAPER) :
    evalInTick users w dev feed = (o.updated, o.trade)
    ∧ o.closed = true
    ∧ o.updated.status = WStatus.SOLD
    ∧ (∃ t : Trade, o.trade = some t ∧ t.side = Side.SELL
        ∧ t.price = resolvedPrice dev feed)
    ∧ (∀ w1 : WatchRow, w1.mode = Mode.LIVE →
        ∀ o1 : TickOutcome, engineStep w1 dev feed = some o1 →
          o1.closed = false ∧ o1.updated.status = w1.status)
    ∧ (∀ w1 : WatchRow, ownerCovered users w1 = false →
        evalInTick users w1 dev feed = (w1, none)) := by
  obtain ⟨-, htpu, -, hcl, -, -, -, -, -, -, -, -, -, hclosed, -⟩ :=
    engineStep_spec w dev feed o hstep
  have hcov : ownerCovered users w = true := by
    rw [ownerCovered, hu]
    exact List.elem_eq_true_of_mem hmem
  have hctrue : o.closed = true := by
    rw [hcl, decide_eq_true_eq]
    exact ⟨htpu ▸ htrig, hmode⟩
  obtain ⟨hsold, -, -, -, htr⟩ := hclosed hctrue
  refine ⟨?_, hctrue, hsold, ?_, ?_, ?_⟩
  · rw [evalInTick, if_pos ⟨hA, hcov⟩, hstep]
  · exact ⟨_, htr, rfl, rfl⟩
  · intro w1 hlive o1 hstep1
    obtain ⟨-, -, -, hcl1, -, -, -, -, -, -, -, -, -, -, hopen1⟩ :=
      engineStep_spec w1 dev feed o1 hstep1
    have hcf : o1.closed = false := by
      rw [hcl1, decide_eq_false_iff_not]
      rintro ⟨-, hpm⟩
      rw [hlive] at hpm
      cases hpm
    exact ⟨hcf, (hopen1 hcf).2.1⟩
  · intro w1 hcov1
    rw [evalInTick, if_neg]
    rintro ⟨-, hc⟩
    rw [hcov1] at hc
    cases hc

/-- C1 witness: a covered PAPER trailing watch with committed peak 100
and take-profit 95 evaluated at resolved price 94 is closed. -/
theorem C1_witness :
    evalInTick ["u1"] wTrail (some 94) none = (tickTrail94.updated, tickTrail94.trade)
    ∧ tickTrail94.closed = true
    ∧ tickTrail94.updated.status = WStatus.SOLD := by
  have h := C1_theorem ["u1"] wTrail (some 94) none tickTrail94 "u1" rfl rfl
    (by decide)
    (by norm_num [engineStep, resolvedPrice, tpUsedCalc, tpMovedCalc, tpBase, peakBase,
          candidateTp, newPeak, stepPct, jsOr, engineUpdateRow, executePaperSell,
          tickTrail94, tradeTrail94, wTrail, wLive])
    (by norm_num [resolvedPrice, tickTrail94])
    rfl
  exact ⟨h.1, h.2.1, h.2.2.1⟩

/-- C2 amended: the take-profit price is not persisted; each tick
rederives the baseline take-profit from the committed peak, so after a
tick that commits a new high without passing the hysteresis test the
take-profit used by the next tick is strictly larger anyway. The
hysteresis condition gates only the same-tick upgrade and the
take-profit-moved event, not the cross-tick value. -/
theorem C2_theorem (w : WatchRow) (dev1 feed1 dev2 feed2 : Option ℚ)
    (o1 o2 : TickOutcome)
    (h1 : engineStep w dev1 feed1 = some o1)
    (h2 : engineStep o1.updated dev2 feed2 = some o2)
    (hnew : peakBase w < resolvedPrice dev1 feed1)
    (hm : o1.tpMoved = false)
    (htp : w.tpPercent < 1)
    (hpk : 0 ≤ peakBase w)
    (hstep2 : 0 ≤ stepPct w) :
    o1.tpUsed < o2.tpUsed := by
  obtain ⟨-, htpu1, hmov1, -, hth1, hent1, htpp1, hsp1, -⟩ :=
    engineStep_spec w dev1 feed1 o1 h1
  obtain ⟨-, htpu2, -, -⟩ := engineStep_spec o1.updated dev2 feed2 o2 h2
  have hp1pos : 0 < resolvedPrice dev1 feed1 := lt_of_le_of_lt hpk hnew
  have honepos : 0 < 1 - w.tpPercent := by linarith
  have hmc1 : tpMovedCalc w (resolvedPrice dev1 feed1) = false := hmov1 ▸ hm
  have ho1 : o1.tpUsed = tpBase w := by
    rw [htpu1, tpUsedCalc, hmc1]
    simp
  have hpk2 : peakBase o1.updated = resolvedPrice dev1 feed1 := by
    rw [peakBase, hth1, newPeak_eq_max, max_eq_right hnew.le, jsOr]
    rw [if_neg (ne_of_gt hp1pos)]
  have htb2 : tpBase o1.updated = resolvedPrice dev1 feed1 * (1 - w.tpPercent) := by
    rw [tpBase, hpk2, htpp1]
  have htb2pos : 0 ≤ tpBase o1.updated := by
    rw [htb2]
    positivity
  have hs2 : stepPct o1.updated = stepPct w := by
    rw [stepPct, hsp1, stepPct]
  have hge : tpBase o1.updated ≤ o2.tpUsed := by
    rw [htpu2, tpUsedCalc]
    rcases hb : tpMovedCalc o1.updated (resolvedPrice dev2 feed2) with _ | _
    · simp
    · simp only [if_true]
      have hcand := of_decide_eq_true (tpMovedCalc.eq_def o1.updated
        (resolvedPrice dev2 feed2) ▸ hb)
      calc tpBase o1.updated
          ≤ tpBase o1.updated * (1 + stepPct o1.updated) := by
            rw [hs2]
            nlinarith
        _ ≤ candidateTp o1.updated (resolvedPrice dev2 feed2) := hcand
  have hlt : o1.tpUsed < tpBase o1.updated := by
    rw [ho1, htb2, tpBase]
    exact mul_lt_mul_of_pos_right hnew honepos
  exact lt_of_lt_of_le hlt hge

/-- C2 witness: two ticks of the trailing watch at price 100.5: the new
high 100.5 stays below the 1 percent step threshold, yet the take-profit
used by the second tick rises from 95 to 95.475. -/
theorem C2_witness : tickHalf1.tpUsed < tickHalf2.tpUsed :=
  C2_theorem wTrail (some (201 / 2)) none (some (201 / 2)) none tickHalf1 tickHalf2
    (by norm_num [engineStep, resolvedPrice, tpUsedCalc, tpMovedCalc, tpBase, peakBase,
          candidateTp, newPeak, stepPct, jsOr, engineUpdateRow, executePaperSell,
          tickHalf1, wTrail, wLive])
    (by norm_num [engineStep, resolvedPrice, tpUsedCalc, tpMovedCalc, tpBase, peakBase,
          candidateTp, newPeak, stepPct, jsOr, engineUpdateRow, executePaperSell,
          tickHalf1, tickHalf2, wTrail, wLive])
    (by norm_num [peakBase, jsOr, resolvedPrice, wTrail, wLive])
    rfl
    (by norm_num [wTrail, wLive])
    (by norm_num [peakBase, jsOr, wTrail, wLive])
    (by norm_num [stepPct, jsOr, wTrail, wLive])

/-- C3 amended: the engine trigger comparison ignores tp_mode entirely:
overriding the take-profit mode of any watch changes nothing in the tick
outcome except that same stored field; in particular a FIXED position is
evaluated with the same peak-times-(1 - tpPercent) take-profit as a
TRAILING one. The value entryPrice times (1 + tpPercent) appears only in
the response formatter for FIXED watches. -/
theorem C3_theorem :
    (∀ (w : WatchRow) (dev feed : Option ℚ) (m : TpMode),
      engineStep { w with tpMode := m } dev feed
        = (engineStep w dev feed).map
            (fun o => { o with updated := { o.updated with tpMode := m } }))
    ∧ (∀ w : WatchRow, w.tpMode = TpMode.FIXED →
        formatTpPrice w = some (jsRound2 (w.entryPrice * (1 + w.tpPercent)))) := by
  constructor
  · intro w dev feed m
    by_cases h0 : resolvedPrice dev feed = 0
    · simp [engineStep, h0]
    · simp only [engineStep, tpUsedCalc_tpMode, mode_tpMode,
        engineUpdateRow_tpMode, executePaperSell_tpMode, tpMovedCalc_tpMode]
      rw [if_neg h0, if_neg h0]
      by_cases hcl : resolvedPrice dev feed ≤ tpUsedCalc w (resolvedPrice dev feed)
          ∧ w.mode = Mode.PAPER
      · rw [if_pos hcl, if_pos hcl, Option.map_some']
      · rw [if_neg hcl, if_neg hcl, Option.map_some']
  · intro w hf
    rcases hth : w.trailingHigh with _ | th
    · simp [formatTpPrice, hf, hth]
    · simp [formatTpPrice, hf, hth]

/-- C3 witness: the tick outcome of the FIXED variant of the trailing
watch equals the TRAIL outcome with only the stored mode field changed,
and the formatter reports 105 for the FIXED watch at entry 100. -/
theorem C3_witness :
    engineStep { wTrail with tpMode := TpMode.FIXED } (some 94) none
      = (engineStep wTrail (some 94) none).map
          (fun o => { o with updated := { o.updated with tpMode := TpMode.FIXED } })
    ∧ formatTpPrice wFixed = some (jsRound2 (wFixed.entryPrice * (1 + wFixed.tpPercent))) :=
  ⟨C3_theorem.1 wTrail (some 94) none TpMode.FIXED, C3_theorem.2 wFixed rfl⟩

/-- C4 counterexample. Same position, same fill price 94: the engine
close records a SELL trade with notional 940 and no fee, while the
manual close (through the paper adapter, fee 0.94) records notional
939.06 with the fee set. The two recorded SELL trades differ, refuting
the claim that both paths use the same close routine and record the
same fee and SELL trade for the same fill. -/
theorem C4_counterexample :
    ((engineStep wTrail (some 94) none).bind TickOutcome.trade = some tradeTrail94)
    ∧ ((postSell stSell 1 true (placeMarketSell (some 94) none 10)).1.trades
        = [tradeManual94])
    ∧ tradeTrail94.price = tradeManual94.price
    ∧ tradeTrail94.fee = none
    ∧ tradeManual94.fee = some (47 / 50)
    ∧ tradeTrail94 ≠ tradeManual94 := by
  refine ⟨?_, ?_, rfl, rfl, rfl, ?_⟩
  · norm_num [engineStep, resolvedPrice, tpUsedCalc, tpMovedCalc, tpBase, peakBase,
      candidateTp, newPeak, stepPct, jsOr, engineUpdateRow, executePaperSell,
      tradeTrail94, wTrail, wLive, Option.bind]
  · norm_num [postSell, findWatch, replaceWatch, placeMarketSell, jsOr, paperFeeBps,
      List.find?, stSell, tradeManual94, wTrail, wLive,
      show (WStatus.ACTIVE = WStatus.SOLD) = False from by simp]
  · simp only [tradeTrail94, tradeManual94, ne_eq, Trade.mk.injEq]
    rintro ⟨-, -, -, -, -, -, -, hfee, -⟩
    cases hfee

/-- C4 amended: the two close paths are distinct routines. The engine
close fills at the resolved tick price without calling the execution
adapter and records a SELL trade with notional amount plus pnl and a
null fee; the manual close takes its fill from placeMarketSell and
records notional amount plus pnl minus fee with the adapter fee. For
the same fill price both record the same sell price, realized pnl and
SOLD transition with zeroed unrealized pnl, and on adapter failure the
manual path leaves the store unchanged. -/
theorem C4_theorem (st : Store) (id : Nat) (conn : Bool) (w : WatchRow)
    (dev feed : Option ℚ) (o : TickOutcome) (r : OrderResult)
    (hfind : findWatch st.watches id = some w)
    (hA : w.status = WStatus.ACTIVE)
    (hmode : w.mode = Mode.PAPER)
    (hstep : engineStep w dev feed = some o)
    (hclosed : o.closed = true)
    (hfill : r.avgPrice = resolvedPrice dev feed) :
    o.updated.status = WStatus.SOLD
    ∧ o.updated.sellPrice = some r.avgPrice
    ∧ o.updated.realizedPnl =
        some ((r.avgPrice - w.entryPrice) / w.entryPrice * w.amountUsdt)
    ∧ o.updated.unrealizedPnl = 0
    ∧ (∃ te : Trade, o.trade = some te ∧ te.side = Side.SELL
        ∧ te.price = r.avgPrice ∧ te.fee = none
        ∧ te.pnl = some ((r.avgPrice - w.entryPrice) / w.entryPrice * w.amountUsdt)
        ∧ te.amountUsdt =
            w.amountUsdt + (r.avgPrice - w.entryPrice) / w.entryPrice * w.amountUsdt)
    ∧ postSell st id conn (some r)
        = ({ st with
             watches := replaceWatch st.watches
               { w with
                 status := WStatus.SOLD
                 sellPrice := some r.avgPrice
                 realizedPnl := some ((r.avgPrice - w.entryPrice) / w.entryPrice * w.amountUsdt)
                 unrealizedPnl := 0 }
             trades := st.trades ++
               [{ watchId := w.id
                  userId := none
                  symbol := w.symbol
                  side := Side.SELL
                  price := r.avgPrice
                  quantity := w.quantity
                  amountUsdt := w.amountUsdt
                    + (r.avgPrice - w.entryPrice) / w.entryPrice * w.amountUsdt - r.feeUsdt
                  fee := some r.feeUsdt
                  pnl := some ((r.avgPrice - w.entryPrice) / w.entryPrice * w.amountUsdt)
                  mode := w.mode }] },
           SellResult.sold)
    ∧ postSell st id conn none = (st, SellResult.orderFailed) := by
  obtain ⟨-, -, -, -, -, -, -, -, -, -, -, -, -, hcl, -⟩ :=
    engineStep_spec w dev feed o hstep
  obtain ⟨hsold, hzero, hsp, hrp, htr⟩ := hcl hclosed
  have hnsold : ¬ w.status = WStatus.SOLD := by
    rw [hA]
    intro hx
    cases hx
  have hnlive : ¬ (w.mode = Mode.LIVE ∧ conn = false) := by
    rintro ⟨hl, -⟩
    rw [hmode] at hl
    cases hl
  refine ⟨hsold, by rw [hsp, hfill], by rw [hrp, hfill], hzero, ?_, ?_, ?_⟩
  · refine ⟨_, htr, rfl, ?_, rfl, ?_, ?_⟩
    · simp [executePaperSell, hfill]
    · simp [executePaperSell, engineUpdateRow, hfill]
    · simp [executePaperSell, engineUpdateRow, hfill]
  · simp only [postSell, hfind]
    rw [if_neg hnsold, if_neg hnlive]
  · simp only [postSell, hfind]
    rw [if_neg hnsold, if_neg hnlive]

/-- C4 witness: the trailing watch closed by the engine at resolved
price 94 and manually with the matching adapter fill. -/
theorem C4_witness :
    tickTrail94.updated.status = WStatus.SOLD
    ∧ tickTrail94.updated.sellPrice = some fill94.avgPrice
    ∧ postSell stSell 1 true none = (stSell, SellResult.orderFailed) := by
  have h := C4_theorem stSell 1 true wTrail (some 94) none tickTrail94 fill94
    rfl rfl rfl
    (by norm_num [engineStep, resolvedPrice, tpUsedCalc, tpMovedCalc, tpBase, peakBase,
          candidateTp, newPeak, stepPct, jsOr, engineUpdateRow, executePaperSell,
          tickTrail94, tradeTrail94, wTrail, wLive])
    rfl rfl
  exact ⟨h.1, h.2.1, h.2.2.2.2.2.2⟩

/-- C5 counterexample. A manual sell on a PAUSED position is not
rejected: it goes through the close path, appending a SELL trade and
transitioning the row to SOLD, refuting the claim that a close attempt
on any non-ACTIVE position is a no-op leaving the row and trades
unchanged; on a SOLD position the request is answered with the
ALREADY_SOLD error rather than a success-no-op. -/
theorem C5_counterexample :
    ((postSell stPaused 1 true (placeMarketSell (some 94) none 10)).2 = SellResult.sold)
    ∧ ((postSell stPaused 1 true (placeMarketSell (some 94) none 10)).1.trades.length = 1)
    ∧ ((postSell stPaused 1 true (placeMarketSell (some 94) none 10)).1.watches.map
        WatchRow.status = [WStatus.SOLD])
    ∧ stPaused.trades.length = 0
    ∧ postSell stSold 1 true (placeMarketSell (some 94) none 10)
        = (stSold, SellResult.alreadySold) := by
  refine ⟨?_, ?_, ?_, rfl, ?_⟩ <;>
    norm_num [postSell, findWatch, replaceWatch, placeMarketSell, jsOr, paperFeeBps,
      List.find?, stPaused, stSold, wPausedRow, wSoldRow, wTrail, wLive,
      show (WStatus.PAUSED = WStatus.SOLD) = False from by simp]

/-- C5 amended: the idempotent guard of the manual close rejects only
positions already in SOLD state, answering the ALREADY_SOLD error (a 400
to the caller, not a success-no-op) and leaving the store unchanged;
a close attempt on a PAUSED or STOPPED position is not rejected and
proceeds through the normal close path, appending a SELL trade. -/
theorem C5_theorem :
    (∀ (st : Store) (id : Nat) (conn : Bool) (a : Option OrderResult) (w : WatchRow),
      findWatch st.watches id = some w → w.status = WStatus.SOLD →
        postSell st id conn a = (st, SellResult.alreadySold))
    ∧ (∀ (st : Store) (id : Nat) (r : OrderResult) (w : WatchRow),
        findWatch st.watches id = some w → w.status ≠ WStatus.SOLD →
          ∃ st1 : Store, postSell st id true (some r) = (st1, SellResult.sold)
            ∧ ∃ t : Trade, st1.trades = st.trades ++ [t] ∧ t.side = Side.SELL) := by
  constructor
  · intro st id conn a w hfind hsold
    simp only [postSell, hfind]
    rw [if_pos hsold]
  · intro st id r w hfind hnsold
    have hnlive : ¬ (w.mode = Mode.LIVE ∧ true = false) := by
      rintro ⟨-, hx⟩
      cases hx
    simp only [postSell, hfind]
    rw [if_neg hnsold, if_neg hnlive]
    exact ⟨_, rfl, _, rfl, rfl⟩

/-- C5 witness: the SOLD store rejects the sell with ALREADY_SOLD and
the PAUSED store accepts it, appending a SELL trade. -/
theorem C5_witness :
    postSell stSold 1 true (some fill94) = (stSold, SellResult.alreadySold)
    ∧ (∃ st1 : Store, postSell stPaused 1 true (some fill94) = (st1, SellResult.sold)
        ∧ ∃ t : Trade, st1.trades = stPaused.trades ++ [t] ∧ t.side = Side.SELL) :=
  ⟨C5_theorem.1 stSold 1 true (some fill94) wSoldRow rfl rfl,
   C5_theorem.2 stPaused 1 fill94 wPausedRow rfl
     (by intro hx
         have : WStatus.PAUSED = WStatus.SOLD := hx
         cases this)⟩

/-- C7: a repeated open with the same idempotency token (the token not
previously stored) creates exactly one watch and one BUY trade on the
first request; the second request returns the same watch id through the
idempotent branch, does not invoke the execution adapter, and leaves the
store untouched. -/
theorem C7_theorem (st : Store) (req1 req2 : OpenReq)
    (c1 : Option ℚ) (f1 : Option ℕ) (g1 : Bool) (lo1 : Option OrderResult)
    (c2 : Option ℚ) (f2 : Option ℕ) (g2 : Bool) (lo2 : Option OrderResult)
    (tok : String) (st1 : Store) (wid : Nat)
    (hnz : st.nextId ≠ 0)
    (hfresh : ∀ kv ∈ st.idemKeys, kv.1 ≠ tok)
    (htok1 : req1.clientOrderId = some tok)
    (htok2 : req2.clientOrderId = some tok)
    (h1 : postWatch st req1 c1 f1 g1 lo1 = (st1, OpenResp.created wid, true)) :
    postWatch st1 req2 c2 f2 g2 lo2 = (st1, OpenResp.idempotent wid, false)
    ∧ wid = st.nextId
    ∧ (∃ wN : WatchRow, ∃ tN : Trade,
        st1.watches = st.watches ++ [wN] ∧ wN.id = wid
        ∧ st1.trades = st.trades ++ [tN] ∧ tN.side = Side.BUY)
    ∧ st1.idemKeys = st.idemKeys ++ [(tok, wid)] := by
  have hchk : checkIdempotency st.idemKeys tok = none :=
    checkIdempotency_eq_none st.idemKeys tok hfresh
  simp only [postWatch, htok1, Option.some_bind, hchk] at h1
  have hmain : st1.idemKeys = st.idemKeys ++ [(tok, wid)]
      ∧ wid = st.nextId
      ∧ (∃ wN : WatchRow, ∃ tN : Trade,
          st1.watches = st.watches ++ [wN] ∧ wN.id = wid
          ∧ st1.trades = st.trades ++ [tN] ∧ tN.side = Side.BUY) := by
    rcases hm : req1.mode with _ | _
    · rw [hm] at h1
      rcases hpb : placeMarketBuy c1 f1 req1.amountUsdt with _ | r
      · rw [hpb] at h1
        simp [Prod.ext_iff] at h1
      · rw [hpb] at h1
        obtain ⟨hst, hwid⟩ : _ ∧ st.nextId = wid := by
          simpa [Prod.ext_iff] using h1
        subst hwid
        refine ⟨by rw [← hst], rfl, ?_⟩
        exact ⟨_, _, by rw [← hst], rfl, by rw [← hst], rfl⟩
    · rw [hm] at h1
      rcases hg : g1 with _ | _
      · rw [hg] at h1
        simp [Prod.ext_iff] at h1
      · rw [hg] at h1
        rcases hlo : lo1 with _ | r
        · rw [hlo] at h1
          simp [Prod.ext_iff] at h1
        · rw [hlo] at h1
          obtain ⟨hst, hwid⟩ : _ ∧ st.nextId = wid := by
            simpa [Prod.ext_iff] using h1
          subst hwid
          refine ⟨by rw [← hst], rfl, ?_⟩
          exact ⟨_, _, by rw [← hst], rfl, by rw [← hst], rfl⟩
  obtain ⟨hkeys, hw, hexists⟩ := hmain
  have hfound : checkIdempotency st1.idemKeys tok = some wid := by
    rw [hkeys]
    exact checkIdempotency_append st.idemKeys tok wid hfresh (hw ▸ hnz)
  refine ⟨?_, hw, hexists, hkeys⟩
  simp only [postWatch, htok2, Option.some_bind, hfound]

/-- C7 witness: posting the PAPER open request with token tok1 twice
against the empty store: the second post returns watch id 1 through the
idempotent branch with no adapter call and no store change. -/
theorem C7_witness :
    postWatch st0After reqO (some 100) none true none
      = (st0After, OpenResp.idempotent 1, false) :=
  (C7_theorem st0 reqO reqO (some 100) none true none (some 100) none true none
    "tok1" st0After 1
    (by norm_num [st0])
    (by simp [st0])
    rfl rfl
    (by norm_num [postWatch, checkIdempotency, placeMarketBuy, jsOr, jsOrNull,
          paperFeeBps, st0, st0After, reqO, watchOpen1, tradeOpen1])).1

/-- C8: the idempotency lookup of the open route is keyed only by the
client token and ignores the owner: with the token already recorded for
some watch, an open request returns that watch through the idempotent
branch with the store unchanged and no adapter call, and the entire
route outcome is identical for any two request owners. -/
theorem C8_theorem (st : Store) (req : OpenReq) (c : Option ℚ) (f : Option ℕ)
    (g : Bool) (lo : Option OrderResult) (owner1 owner2 : String)
    (tok : String) (wid : Nat)
    (htok : req.clientOrderId = some tok)
    (hrec : checkIdempotency st.idemKeys tok = some wid) :
    postWatch st { req with owner := owner1 } c f g lo
      = (st, OpenResp.idempotent wid, false)
    ∧ postWatch st { req with owner := owner1 } c f g lo
      = postWatch st { req with owner := owner2 } c f g lo := by
  have h1 : postWatch st { req with owner := owner1 } c f g lo
      = (st, OpenResp.idempotent wid, false) := by
    simp only [postWatch, clientOrderId_owner, htok, Option.some_bind, hrec]
  have h2 : postWatch st { req with owner := owner2 } c f g lo
      = (st, OpenResp.idempotent wid, false) := by
    simp only [postWatch, clientOrderId_owner, htok, Option.some_bind, hrec]
  exact ⟨h1, h1.trans h2.symm⟩

/-- C8 witness: with tok1 already mapping to watch 7, the open request
returns watch 7 for owner alice exactly as it would for owner bob. -/
theorem C8_witness :
    postWatch stIdem { reqO with owner := "alice" } (some 100) none true none
      = (stIdem, OpenResp.idempotent 7, false)
    ∧ postWatch stIdem { reqO with owner := "alice" } (some 100) none true none
      = postWatch stIdem { reqO with owner := "bob" } (some 100) none true none :=
  C8_theorem stIdem reqO (some 100) none true none "alice" "bob" "tok1" 7 rfl
    (by norm_num [checkIdempotency, stIdem])

/-- C9 amended: both close paths (the engine trigger and the manual
sell) zero the persisted unrealized pnl when they transition the row to
SOLD; the pause route changes only the status and leaves the persisted
unrealized pnl untouched, and the response formatter reports unrealized
pnl 0 for every non-ACTIVE row regardless of the stored value. -/
theorem C9_theorem :
    (∀ (w : WatchRow) (dev feed : Option ℚ) (o : TickOutcome),
        engineStep w dev feed = some o → o.closed = true →
          o.updated.status = WStatus.SOLD ∧ o.updated.unrealizedPnl = 0)
    ∧ (∀ (st : Store) (id : Nat) (conn : Bool) (r : OrderResult) (st1 : Store),
        postSell st id conn (some r) = (st1, SellResult.sold) →
          ∃ w : WatchRow, findWatch st.watches id = some w
            ∧ st1.watches = replaceWatch st.watches
                { w with
                  status := WStatus.SOLD
                  sellPrice := some r.avgPrice
                  realizedPnl := some ((r.avgPrice - w.entryPrice) / w.entryPrice * w.amountUsdt)
                  unrealizedPnl := 0 })
    ∧ (∀ (st : Store) (id : Nat) (st1 : Store),
        postPause st id = (st1, PauseResult.paused) →
          ∃ w : WatchRow, findWatch st.watches id = some w
            ∧ st1.watches = replaceWatch st.watches { w with status := WStatus.PAUSED }
            ∧ ({ w with status := WStatus.PAUSED } : WatchRow).unrealizedPnl
                = w.unrealizedPnl)
    ∧ (∀ w : WatchRow, w.status ≠ WStatus.ACTIVE → formatUnrealizedPnl w = 0) := by
  refine ⟨?_, ?_, ?_, ?_⟩
  · intro w dev feed o hstep hc
    obtain ⟨-, -, -, -, -, -, -, -, -, -, -, -, -, hcl, -⟩ :=
      engineStep_spec w dev feed o hstep
    obtain ⟨hs, hz, -⟩ := hcl hc
    exact ⟨hs, hz⟩
  · intro st id conn r st1 h
    rcases hf : findWatch st.watches id with _ | w
    · simp only [postSell, hf] at h
      simp [Prod.ext_iff] at h
    · simp only [postSell, hf] at h
      by_cases hs : w.status = WStatus.SOLD
      · rw [if_pos hs] at h
        simp [Prod.ext_iff] at h
      · rw [if_neg hs] at h
        by_cases hl : w.mode = Mode.LIVE ∧ conn = false
        · rw [if_pos hl] at h
          simp [Prod.ext_iff] at h
        · rw [if_neg hl] at h
          injection h with hst hsnd
          exact ⟨w, rfl, by rw [← hst]⟩
  · intro st id st1 h
    rcases hf : findWatch st.watches id with _ | w
    · simp only [postPause, hf] at h
      simp [Prod.ext_iff] at h
    · simp only [postPause, hf] at h
      by_cases hs : w.status ≠ WStatus.ACTIVE
      · rw [if_pos hs] at h
        simp [Prod.ext_iff] at h
      · rw [if_neg hs] at h
        injection h with hst hsnd
        exact ⟨w, rfl, by rw [← hst], rfl⟩
  · intro w hne
    rw [formatUnrealizedPnl, if_neg hne]
    norm_num [jsRound2]

/-- C9 witness: the engine close at price 94 zeroes the persisted
unrealized pnl, and the formatter reports 0 for the SOLD row. -/
theorem C9_witness :
    (tickTrail94.updated.status = WStatus.SOLD
      ∧ tickTrail94.updated.unrealizedPnl = 0)
    ∧ formatUnrealizedPnl wSoldRow = 0 :=
  ⟨C9_theorem.1 wTrail (some 94) none tickTrail94
      (by norm_num [engineStep, resolvedPrice, tpUsedCalc, tpMovedCalc, tpBase, peakBase,
            candidateTp, newPeak, stepPct, jsOr, engineUpdateRow, executePaperSell,
            tickTrail94, tradeTrail94, wTrail, wLive])
      rfl,
   C9_theorem.2.2.2 wSoldRow (by intro hx; exact absurd hx (by decide))⟩

end Botv1
